import Mathlib

/-!
Discovery-Driven Tunnel Coordinator: a shallow embedding.

A shallow embedding of the coordinator in `mpcoord.go`: each Go function that
the specification talks about is translated into a Lean function that returns
the sequence of observable actions it performs (logging, spawning goroutines,
dialing, binding listeners, running the external backend command), together
with a flag recording whether the call terminated the whole process
(Go's `log.Fatal` logs and then calls `os.Exit(1)`).

External collaborators (the network, the OS process runner, the libp2p
transport) are modelled as oracles passed in as arguments: an `Option String`
that is `some e` when the corresponding Go call would return the error `e`,
and `none` when it would succeed.
-/

namespace Mpcoord

/-- Direction of one Byte Forwarder task inside a tunnel. -/
inductive Direction where
  | streamToConn
  | connToStream
deriving DecidableEq

/-- Observable actions of the coordinator process.  `logFatal` is Go's
`log.Fatal`: it logs and then exits the whole process.  `spawnRunExternal`
records a `go runExternal(event, port)` statement (fire-and-forget goroutine),
while `execCmd` records a synchronous `cmd.Run()` of the external backend
command with its argument vector and environment.  `closeStream` / `closeConn`
record a close of the inbound libp2p stream / the accepted local TCP
connection; the embedded code can emit them, so their absence from a trace is
meaningful. -/
inductive Action where
  | logPrintln (msg : String)
  | logFatal (msg : String)
  | execCmd (args env : List String)
  | spawnRunExternal (event : String) (port : Nat)
  | dial (port : Nat)
  | sleep (seconds : Nat)
  | spawnForward (d : Direction)
  | listen (port : Nat)
  | spawnAcceptLoop
  | connect (id : Nat)
  | openStream (id : Nat)
  | closeStream
  | closeConn
deriving DecidableEq

/-- The outcome of running a piece of the coordinator: the actions it
performed, and whether it terminated the whole process (`log.Fatal`). -/
structure RunResult where
  trace : List Action
  exited : Bool
deriving DecidableEq

/-- Peer address info as delivered by discovery: an opaque comparable peer
identifier plus its known addresses (`peer.AddrInfo`). -/
structure AddrInfo where
  id : Nat
  addrs : List String
deriving DecidableEq

/-- `mpcoord.go:38` — the transport host's listen port,
`10000 + rand.Intn(10000)`; `r` is the raw pseudo-random value. -/
def hostListenPort (r : Nat) : Nat := 10000 + r % 10000

/-- `mpcoord.go:127` — the local port for an incoming backend,
`20000 + rand.Intn(10000)`. -/
def incomingBackendPort (r : Nat) : Nat := 20000 + r % 10000

/-- `mpcoord.go:341` — the local port for the outbound tunnel listener,
`30000 + rand.Intn(10000)`. -/
def outboundListenPort (r : Nat) : Nat := 30000 + r % 10000

/-- `mpcoord.go:180-183` — the external command: `exec.Command("make", event)`
with `cmd.Env = append(cmd.Env, fmt.Sprintf("PORT=%d", port))`; `cmd.Env`
starts empty, so the environment is exactly `[PORT=<port>]`. -/
structure Cmd where
  args : List String
  env : List String
deriving DecidableEq

def mkCommand (event : String) (port : Nat) : Cmd :=
  { args := ["make", event], env := ["PORT=" ++ toString port] }

/-- `mpcoord.go:179-188` — `runExternal(event, port)`: build the command, run
it synchronously; if `cmd.Run()` returns an error, `log.Fatal(err)` — the
whole process exits.  `runErr` is the oracle for the error returned by
`cmd.Run()`. -/
def runExternal (event : String) (port : Nat) (runErr : Option String) : RunResult :=
  let c := mkCommand event port
  match runErr with
  | some e => ⟨[Action.execCmd c.args c.env, Action.logFatal e], true⟩
  | none => ⟨[Action.execCmd c.args c.env], false⟩

/-- `mpcoord.go:190-196` — one endpoint of a tunnel as the Byte Forwarder
reads it: the bytes available before the source terminates, and `readErr`,
which is `none` for a clean end-of-stream and `some e` when the copy stops
with I/O error `e`. -/
structure Endpoint where
  bytes : List Nat
  readErr : Option String
deriving DecidableEq

/-- The observable outcome of `io.Copy(dst, src)`: the bytes transferred
before end-of-stream or error, and the terminal error, if any. -/
def ioCopy (src : Endpoint) : List Nat × Option String :=
  (src.bytes, src.readErr)

/-- Result of `forward`: bytes written to the destination, whether the
destination was closed, warnings logged, and whether the process exited. -/
structure ForwardResult where
  written : List Nat
  dstClosed : Bool
  warnings : List String
  exited : Bool
deriving DecidableEq

/-- `mpcoord.go:190-196` — `forward(dst, src)`: `io.Copy(dst, src)`; if the
copy returned an error it is logged with `log.Println` (a warning, not a
fatal); then `dst.Close()` unconditionally. -/
def forward (src : Endpoint) : ForwardResult :=
  let r := ioCopy src
  match r.2 with
  | some e => ⟨r.1, true, [e], false⟩
  | none => ⟨r.1, true, [], false⟩

/-- `mpcoord.go:131-143` — the connect-retry loop of `handleRemoteConnection`:
`for i := 0; i < 60; i++` dial the backend port; on error log a warning, sleep
one second and retry; on success spawn the two forwarders and return.  After
the loop, log the give-up error (the stream is not closed).  `dialErr i` is
the oracle for the error of the dial on attempt `i`; `i` is the attempt index
and `n` the remaining attempts. -/
def connectLoop (dialErr : Nat → Option String) (port : Nat) : Nat → Nat → List Action
  | _, 0 => [Action.logPrintln "Error: could not reach local server."]
  | i, n + 1 =>
    match dialErr i with
    | some e =>
      Action.dial port :: Action.logPrintln ("Warning: " ++ e ++ " , retrying…")
        :: Action.sleep 1 :: connectLoop dialErr port (i + 1) n
    | none =>
      [Action.dial port, Action.spawnForward Direction.streamToConn,
        Action.spawnForward Direction.connToStream]

/-- `mpcoord.go:124-145` — `handleRemoteConnection(stream)`: log, pick the
incoming-backend port from the pseudo-random value `r`, spawn
`runExternal("incoming-connection", port)` in a goroutine, then run the
60-attempt connect-retry loop. -/
def handleRemoteConnection (r : Nat) (dialErr : Nat → Option String) : List Action :=
  Action.logPrintln "server: forwarding remote connection to local server"
    :: Action.spawnRunExternal "incoming-connection" (incomingBackendPort r)
    :: connectLoop dialErr (incomingBackendPort r) 0 60

/-- `mpcoord.go:147-162` — `ProxyService.Serve`: log, `net.Listen` on the
port; on bind error `log.Fatal(err)` — the whole process exits; on success
spawn the accept loop goroutine and return.  `listenErr` is the oracle for
the error of `net.Listen`. -/
def serve (port : Nat) (listenErr : Option String) : RunResult :=
  match listenErr with
  | some e =>
    ⟨[Action.logPrintln "client: listening for local requests",
      Action.listen port, Action.logFatal e], true⟩
  | none =>
    ⟨[Action.logPrintln "client: listening for local requests",
      Action.listen port, Action.spawnAcceptLoop], false⟩

/-- `mpcoord.go:164-177` — `ProxyService.handleLocalConnection(conn,
remotePeer)`: log, open a protocol-tagged stream to the remote peer; on error
log it and return (the accepted connection `conn` is not closed); on success
spawn the two forwarders.  `newStreamErr` is the oracle for the error of
`host.NewStream`. -/
def handleLocalConnection (remotePeer : Nat) (newStreamErr : Option String) : List Action :=
  match newStreamErr with
  | some e =>
    [Action.logPrintln "client: forwarding local connection to remote peer",
      Action.openStream remotePeer, Action.logPrintln e]
  | none =>
    [Action.logPrintln "client: forwarding local connection to remote peer",
      Action.openStream remotePeer, Action.spawnForward Direction.streamToConn,
      Action.spawnForward Direction.connToStream]

/-- `mpcoord.go:107-111` — the body of one discovery poll: of the peers
returned by `FindPeers`, push onto the peer channel, in order, exactly those
whose ID differs from this host's own ID. -/
def discoveryEmits (selfID : Nat) (found : List AddrInfo) : List AddrInfo :=
  found.filter fun peerInfo => peerInfo.id != selfID

/-- `mpcoord.go:210-221` — `addRelayAddress(relayAddr, peerInfo)`: no-op when
no relay is configured; otherwise build the circuit address, and either append
it to the peer's addresses or log a parse warning.  Returns the (possibly
augmented) peer info and the actions logged.  `parseOk` is the oracle for
`ma.NewMultiaddr` succeeding on the given string. -/
def addRelayAddress (parseOk : String → Bool) (relayAddr : String) (peerInfo : AddrInfo) :
    AddrInfo × List Action :=
  if relayAddr = "" then (peerInfo, [])
  else
    let addr := relayAddr ++ "/p2p-circuit/p2p/" ++ toString peerInfo.id
    if parseOk addr then ({ peerInfo with addrs := peerInfo.addrs ++ [addr] }, [])
    else (peerInfo, [Action.logPrintln ("Warning: could not parse " ++ addr)])

/-- `mpcoord.go:330-346` — the body of one iteration of the Coordinator's
main loop for peer `p` with pseudo-random value `r`: log the found peer, apply
relay augmentation, attempt `host.Connect` (on error log and skip — the
`continue`), otherwise bind the outbound listener via `Serve` (fatal on bind
failure) and synchronously run the outgoing backend. -/
def mainLoopStep (parseOk : String → Bool) (relayAddr : String)
    (connectErr listenErr runErr : Option String) (p : AddrInfo) (r : Nat) : RunResult :=
  let rel := addRelayAddress parseOk relayAddr p
  let pre := Action.logPrintln "Found peer" :: rel.2
  match connectErr with
  | some _ =>
    ⟨pre ++ [Action.connect rel.1.id, Action.logPrintln "Failed to connect, skipping"], false⟩
  | none =>
    let s := serve (outboundListenPort r) listenErr
    if s.exited then ⟨pre ++ [Action.connect rel.1.id] ++ s.trace, true⟩
    else
      let rex := runExternal "outgoing-connection" (outboundListenPort r) runErr
      ⟨pre ++ [Action.connect rel.1.id] ++ s.trace ++ rex.trace, rex.exited⟩

/-- `mpcoord.go:330-346` — the Coordinator's main loop over the sequence of
peers received from the DiscoveredPeer queue.  The oracles are per-peer;
`rand i` is the pseudo-random value drawn at iteration `i`.  If an iteration
exits the process (`log.Fatal` anywhere inside), no later peer is processed. -/
def mainLoop (parseOk : String → Bool) (relayAddr : String)
    (connectErr listenErr runErr : AddrInfo → Option String)
    (rand : Nat → Nat) : Nat → List AddrInfo → RunResult
  | _, [] => ⟨[], false⟩
  | i, p :: rest =>
    let s := mainLoopStep parseOk relayAddr (connectErr p) (listenErr p) (runErr p) p (rand i)
    if s.exited then s
    else
      let t := mainLoop parseOk relayAddr connectErr listenErr runErr rand (i + 1) rest
      ⟨s.trace ++ t.trace, t.exited⟩

/-- The node's role, decided once at startup. -/
inductive Role where
  | relay
  | client
  | server
deriving DecidableEq

/-- `mpcoord.go:269-275` — role selection from the parsed flags: the `-R`
relay flag wins; else a non-empty `-c` remote peer address means client; else
auto-discovery server. -/
def selectRole (pureRelay : Bool) (remotePeer : String) : Role :=
  if pureRelay then Role.relay
  else if remotePeer != "" then Role.client
  else Role.server

/-- Number of dial attempts recorded in a trace. -/
def countDials (t : List Action) : Nat :=
  t.countP fun a => match a with | Action.dial _ => true | _ => false

/-- Number of one-second sleeps recorded in a trace. -/
def countSleeps (t : List Action) : Nat :=
  t.countP fun a => match a with | Action.sleep _ => true | _ => false

/-- Number of listener-bind attempts recorded in a trace. -/
def countListens (t : List Action) : Nat :=
  t.countP fun a => match a with | Action.listen _ => true | _ => false

end Mpcoord

namespace Mpcoord

/-! Helper lemmas -/

/-- Relay augmentation never changes the peer identifier. -/
lemma addRelayAddress_fst_id (pk : String → Bool) (ra : String) (p : AddrInfo) :
    (addRelayAddress pk ra p).1.id = p.id := by
  unfold addRelayAddress
  by_cases h : ra = ""
  · simp [h]
  · by_cases h2 : pk (ra ++ "/p2p-circuit/p2p/" ++ toString p.id) <;> simp [h, h2]

/-- Relay augmentation performs at most one action, and it is a log line. -/
lemma addRelayAddress_snd (pk : String → Bool) (ra : String) (p : AddrInfo) :
    (addRelayAddress pk ra p).2 = []
  ∨ ∃ m, (addRelayAddress pk ra p).2 = [Action.logPrintln m] := by
  unfold addRelayAddress
  by_cases h : ra = ""
  · simp [h]
  · by_cases h2 : pk (ra ++ "/p2p-circuit/p2p/" ++ toString p.id) <;> simp [h, h2]

/-- The per-attempt warning line is never equal to the give-up error line. -/
lemma warning_ne_error (e : String) :
    ("Warning: " ++ e ++ " , retrying…" : String)
      ≠ "Error: could not reach local server." := by
  intro h
  have h2 := congrArg String.data h
  rw [String.data_append, String.data_append] at h2
  have hw : ("Warning: " : String).data = 'W' :: ("arning: " : String).data := rfl
  have he : ("Error: could not reach local server." : String).data
      = 'E' :: ("rror: could not reach local server." : String).data := rfl
  rw [hw, he, List.cons_append, List.cons_append] at h2
  injection h2 with h3 h4
  exact absurd h3 (by decide)

end Mpcoord

namespace Mpcoord

/-! Claim theorems: functional correctness of the small components -/

/-- C6: for every pair of connected endpoints, the Byte Forwarder copies the
bytes from the source until end-of-stream or an I/O error, closes the
destination on completion in either case, reports an I/O error as a logged
warning (not a fatal), and never exits the process. -/
theorem forward_copies_and_closes (src : Endpoint) :
    (forward src).written = src.bytes
  ∧ (forward src).dstClosed = true
  ∧ (forward src).warnings = src.readErr.toList
  ∧ (forward src).exited = false := by
  cases h : src.readErr <;> simp [forward, ioCopy, h]

/-- C10: role selection gives the relay flag precedence: a set relay flag
yields the relay role even with a remote peer supplied; the client role is
chosen exactly when the relay flag is unset and the remote peer address is
non-empty; otherwise the auto-discovery server role is chosen. -/
theorem selectRole_spec (pr : Bool) (rp : String) :
    selectRole true rp = Role.relay
  ∧ (selectRole pr rp = Role.relay ↔ pr = true)
  ∧ (selectRole pr rp = Role.client ↔ (pr = false ∧ rp ≠ ""))
  ∧ (selectRole pr rp = Role.server ↔ (pr = false ∧ rp = "")) := by
  cases pr <;> by_cases h : rp = "" <;> simp [selectRole, h]

/-- C4: one poll of the Peer Discovery Loop pushes onto the queue exactly the
discovered entries whose identifier differs from this node's own identifier;
the node's own identifier is never emitted. -/
theorem discovery_filters_self (selfID : Nat) (found : List AddrInfo) (p : AddrInfo) :
    (p ∈ discoveryEmits selfID found ↔ p ∈ found ∧ p.id ≠ selfID)
  ∧ (discoveryEmits selfID found).all (fun q => q.id != selfID) = true := by
  constructor
  · simp [discoveryEmits, List.mem_filter]
  · rw [List.all_eq_true]
    intro q hq
    exact (List.mem_filter.mp hq).2

/-- C8: the incoming-backend port always lies in [20000, 29999], the outbound
listener port in [30000, 39999] and the transport host's listen port in
[10000, 19999]; the three ranges are pairwise disjoint.  The port spawned for
an incoming backend in the Inbound Tunnel Handler is exactly the
incoming-range port. -/
theorem port_ranges (r s : Nat) (dialErr : Nat → Option String) :
    (20000 ≤ incomingBackendPort r ∧ incomingBackendPort r ≤ 29999)
  ∧ (30000 ≤ outboundListenPort r ∧ outboundListenPort r ≤ 39999)
  ∧ (10000 ≤ hostListenPort r ∧ hostListenPort r ≤ 19999)
  ∧ incomingBackendPort r ≠ outboundListenPort s
  ∧ incomingBackendPort r ≠ hostListenPort s
  ∧ outboundListenPort r ≠ hostListenPort s
  ∧ (handleRemoteConnection r dialErr)[1]?
      = some (Action.spawnRunExternal "incoming-connection" (incomingBackendPort r)) := by
  have h1 : r % 10000 < 10000 := Nat.mod_lt _ (by norm_num)
  have h2 : s % 10000 < 10000 := Nat.mod_lt _ (by norm_num)
  refine ⟨⟨?_, ?_⟩, ⟨?_, ?_⟩, ⟨?_, ?_⟩, ?_, ?_, ?_, ?_⟩ <;>
    first
      | (simp only [incomingBackendPort, outboundListenPort, hostListenPort]; omega)
      | simp [handleRemoteConnection]

/-- C9: when opening the protocol-tagged stream to the remote peer fails, the
local-connection handler logs the error and returns without closing the
accepted local connection and without starting any forwarder. -/
theorem localConn_failure_leaves_conn_open (remotePeer : Nat) (e : String) :
    Action.logPrintln e ∈ handleLocalConnection remotePeer (some e)
  ∧ Action.closeConn ∉ handleLocalConnection remotePeer (some e)
  ∧ (∀ d, Action.spawnForward d ∉ handleLocalConnection remotePeer (some e)) := by
  refine ⟨?_, ?_, ?_⟩ <;> simp [handleLocalConnection]

/-- Witness for C9 at a concrete peer and error. -/
theorem localConn_failure_witness :
    Action.closeConn ∉ handleLocalConnection 7 (some "stream reset") :=
  (localConn_failure_leaves_conn_open 7 "stream reset").2.1

/-! Claim theorems: fatal-error behavior -/

/-- C3 counterexample: at a concrete bind error, `Serve` does not leave the
process running — the claim that the process survives a bind failure is false
on the code (`log.Fatal` at `mpcoord.go:151`). -/
theorem serve_bind_failure_cex :
    ¬ ((serve 30001 (some "bind: address already in use")).exited = false) := by
  decide

/-- C3 (amended): a bind failure in `Serve` logs the error fatally and
terminates the whole coordinator process; the call makes exactly one bind
attempt — there is no retry within the same call. -/
theorem serve_bind_failure_fatal (port : Nat) (e : String) :
    (serve port (some e)).exited = true
  ∧ Action.logFatal e ∈ (serve port (some e)).trace
  ∧ countListens (serve port (some e)).trace = 1 := by
  refine ⟨rfl, by simp [serve], ?_⟩
  simp [serve, countListens, List.countP_cons]

/-- C1 counterexample: with two discovered peers and a backend-launch failure
on the first, the coordinator process exits and the second peer is never
connected — the claim that a backend launch failure is fatal only for one
tunnel attempt is false on the code (`log.Fatal` at `mpcoord.go:186`). -/
theorem backend_launch_failure_cex :
    ¬ ((mainLoop (fun _ => true) "" (fun _ => none) (fun _ => none)
          (fun q => if q.id = 1 then some "exec failed" else none) (fun _ => 0) 0
          [⟨1, []⟩, ⟨2, []⟩]).exited = false
        ∧ Action.connect 2 ∈ (mainLoop (fun _ => true) "" (fun _ => none) (fun _ => none)
          (fun q => if q.id = 1 then some "exec failed" else none) (fun _ => 0) 0
          [⟨1, []⟩, ⟨2, []⟩]).trace) := by
  decide

/-- C1 (amended): when the external backend process cannot be started,
`runExternal` logs the error via `log.Fatal` and the whole coordinator
process exits; in the main loop this stops all processing — the result on
`p :: rest` is exactly the failing step, independent of `rest`. -/
theorem runExternal_failure_exits_process (event : String) (port : Nat) (e : String)
    (pk : String → Bool) (ra : String) (rand : Nat → Nat) (i : Nat)
    (p : AddrInfo) (rest : List AddrInfo) :
    (runExternal event port (some e)).exited = true
  ∧ Action.logFatal e ∈ (runExternal event port (some e)).trace
  ∧ mainLoop pk ra (fun _ => none) (fun _ => none) (fun _ => some e) rand i (p :: rest)
      = mainLoopStep pk ra none none (some e) p (rand i) := by
  refine ⟨rfl, by simp [runExternal], ?_⟩
  simp [mainLoop, mainLoopStep, serve, runExternal, mkCommand]

end Mpcoord

namespace Mpcoord

/-! The connect-retry loop of the Inbound Tunnel Handler -/

/-- Unfolding: a failing attempt logs a warning, sleeps, retries. -/
lemma connectLoop_succ_fail (dialErr : Nat → Option String) (port i n : Nat) (e : String)
    (h : dialErr i = some e) :
    connectLoop dialErr port i (n + 1)
      = Action.dial port :: Action.logPrintln ("Warning: " ++ e ++ " , retrying…")
          :: Action.sleep 1 :: connectLoop dialErr port (i + 1) n := by
  simp [connectLoop, h]

/-- Unfolding: a successful attempt spawns the two forwarders and returns. -/
lemma connectLoop_succ_ok (dialErr : Nat → Option String) (port i n : Nat)
    (h : dialErr i = none) :
    connectLoop dialErr port i (n + 1)
      = [Action.dial port, Action.spawnForward Direction.streamToConn,
          Action.spawnForward Direction.connToStream] := by
  simp [connectLoop, h]

/-- The loop never makes more dial attempts than its budget. -/
lemma connectLoop_dials_le (dialErr : Nat → Option String) (port : Nat) :
    ∀ n i, countDials (connectLoop dialErr port i n) ≤ n := by
  intro n
  induction n with
  | zero => intro i; simp [connectLoop, countDials]
  | succ m ih =>
    intro i
    cases h : dialErr i with
    | some e =>
      rw [connectLoop_succ_fail dialErr port i m e h]
      have := ih (i + 1)
      simp [countDials, List.countP_cons] at this ⊢
      omega
    | none =>
      rw [connectLoop_succ_ok dialErr port i m h]
      simp [countDials, List.countP_cons]

/-- When every attempt in the window fails: the loop makes exactly `n` dials
and `n` one-second sleeps, ends with the give-up error log, never closes the
stream and never starts a forwarder. -/
lemma connectLoop_allFail (dialErr : Nat → Option String) (port : Nat) :
    ∀ n i, (∀ j, i ≤ j → j < i + n → dialErr j ≠ none) →
      countDials (connectLoop dialErr port i n) = n
    ∧ countSleeps (connectLoop dialErr port i n) = n
    ∧ Action.logPrintln "Error: could not reach local server." ∈ connectLoop dialErr port i n
    ∧ Action.closeStream ∉ connectLoop dialErr port i n
    ∧ (∀ d, Action.spawnForward d ∉ connectLoop dialErr port i n) := by
  intro n
  induction n with
  | zero =>
    intro i _
    refine ⟨?_, ?_, ?_, ?_, ?_⟩ <;> simp [connectLoop, countDials, countSleeps]
  | succ m ih =>
    intro i h
    have hi : dialErr i ≠ none := h i (le_refl i) (by omega)
    cases hd : dialErr i with
    | none => exact absurd hd hi
    | some e =>
      have hrec := ih (i + 1) (fun j h1 h2 => h j (by omega) (by omega))
      rw [connectLoop_succ_fail dialErr port i m e hd]
      obtain ⟨r1, r2, r3, r4, r5⟩ := hrec
      refine ⟨?_, ?_, ?_, ?_, ?_⟩
      · simp [countDials, List.countP_cons] at r1 ⊢
        omega
      · simp [countSleeps, List.countP_cons] at r2 ⊢
        omega
      · simp [List.mem_cons, r3]
      · simp [List.mem_cons, r4]
      · intro d
        simp [List.mem_cons, r5 d]

/-- When the first successful attempt is attempt `k` inside the window: the
loop makes exactly the dials up to and including `k`, sleeps once per failed
attempt, spawns both forwarders and never logs the give-up error. -/
lemma connectLoop_firstSuccess (dialErr : Nat → Option String) (port : Nat) :
    ∀ n i k, i ≤ k → k < i + n → (∀ j, i ≤ j → j < k → dialErr j ≠ none) →
      dialErr k = none →
      countDials (connectLoop dialErr port i n) = k - i + 1
    ∧ countSleeps (connectLoop dialErr port i n) = k - i
    ∧ Action.spawnForward Direction.streamToConn ∈ connectLoop dialErr port i n
    ∧ Action.spawnForward Direction.connToStream ∈ connectLoop dialErr port i n
    ∧ Action.logPrintln "Error: could not reach local server." ∉ connectLoop dialErr port i n := by
  intro n
  induction n with
  | zero =>
    intro i k h1 h2 _ _
    exact absurd h2 (by omega)
  | succ m ih =>
    intro i k h1 h2 h3 h4
    by_cases hik : i = k
    · subst hik
      rw [connectLoop_succ_ok dialErr port i m h4]
      refine ⟨?_, ?_, ?_, ?_, ?_⟩ <;>
        simp [countDials, countSleeps, List.countP_cons]
    · have hlt : i < k := lt_of_le_of_ne h1 hik
      have hi : dialErr i ≠ none := h3 i (le_refl i) hlt
      cases hd : dialErr i with
      | none => exact absurd hd hi
      | some e =>
        have hrec := ih (i + 1) k (by omega) (by omega)
          (fun j hj1 hj2 => h3 j (by omega) hj2) h4
        rw [connectLoop_succ_fail dialErr port i m e hd]
        obtain ⟨r1, r2, r3, r4, r5⟩ := hrec
        refine ⟨?_, ?_, ?_, ?_, ?_⟩
        · simp [countDials, List.countP_cons] at r1 ⊢
          omega
        · simp [countSleeps, List.countP_cons] at r2 ⊢
          omega
        · simp [List.mem_cons, r3]
        · simp [List.mem_cons, r4]
        · have hne := (warning_ne_error e).symm
          simp [List.mem_cons, r5, hne]

end Mpcoord

namespace Mpcoord

/-- C2 counterexample: with every dial failing, the Inbound Tunnel Handler
never closes the inbound stream — the claim that the stream is closed after
the 60 failed attempts is false on the code (`mpcoord.go:144` only logs). -/
theorem inbound_no_close_cex :
    ¬ (Action.closeStream ∈ handleRemoteConnection 0 (fun _ => some "connection refused")) := by
  have h := connectLoop_allFail (fun _ => some "connection refused")
    (incomingBackendPort 0) 60 0 (fun j _ _ => by simp)
  intro hmem
  simp only [handleRemoteConnection, List.mem_cons] at hmem
  rcases hmem with h1 | h1 | h1
  · exact absurd h1 (by decide)
  · exact absurd h1 (by decide)
  · exact absurd h1 h.2.2.2.1

/-- C2 (amended): the Inbound Tunnel Handler dials the local backend at most
60 times at one-second spacing; if a dial first succeeds on attempt `k < 60`
it makes exactly `k + 1` dials, starts the two forwarders and returns without
logging the give-up error; if all 60 attempts fail it makes exactly 60 dials,
logs the give-up error and returns — without closing the inbound stream —
and retries no further. -/
theorem inbound_retry_budget (r : Nat) (dialErr : Nat → Option String) :
    countDials (handleRemoteConnection r dialErr) ≤ 60
  ∧ ((∀ j, j < 60 → dialErr j ≠ none) →
      countDials (handleRemoteConnection r dialErr) = 60
    ∧ countSleeps (handleRemoteConnection r dialErr) = 60
    ∧ Action.logPrintln "Error: could not reach local server."
        ∈ handleRemoteConnection r dialErr
    ∧ Action.closeStream ∉ handleRemoteConnection r dialErr)
  ∧ (∀ k, k < 60 → (∀ j, j < k → dialErr j ≠ none) → dialErr k = none →
      countDials (handleRemoteConnection r dialErr) = k + 1
    ∧ countSleeps (handleRemoteConnection r dialErr) = k
    ∧ Action.spawnForward Direction.streamToConn ∈ handleRemoteConnection r dialErr
    ∧ Action.spawnForward Direction.connToStream ∈ handleRemoteConnection r dialErr
    ∧ Action.logPrintln "Error: could not reach local server."
        ∉ handleRemoteConnection r dialErr) := by
  have hd : countDials (handleRemoteConnection r dialErr)
      = countDials (connectLoop dialErr (incomingBackendPort r) 0 60) := by
    simp [handleRemoteConnection, countDials, List.countP_cons]
  have hs : countSleeps (handleRemoteConnection r dialErr)
      = countSleeps (connectLoop dialErr (incomingBackendPort r) 0 60) := by
    simp [handleRemoteConnection, countSleeps, List.countP_cons]
  refine ⟨?_, ?_, ?_⟩
  · rw [hd]
    exact connectLoop_dials_le dialErr (incomingBackendPort r) 60 0
  · intro hfail
    have h := connectLoop_allFail dialErr (incomingBackendPort r) 60 0
      (fun j _ hj => hfail j (by omega))
    refine ⟨by rw [hd]; exact h.1, by rw [hs]; exact h.2.1, ?_, ?_⟩
    · simp [handleRemoteConnection, List.mem_cons, h.2.2.1]
    · simp [handleRemoteConnection, List.mem_cons, h.2.2.2.1]
  · intro k hk hbefore hsucc
    have h := connectLoop_firstSuccess dialErr (incomingBackendPort r) 60 0 k
      (Nat.zero_le k) (by omega) (fun j _ hj => hbefore j hj) hsucc
    refine ⟨?_, ?_, ?_, ?_, ?_⟩
    · rw [hd, h.1]; omega
    · rw [hs, h.2.1]; omega
    · simp [handleRemoteConnection, List.mem_cons, h.2.2.1]
    · simp [handleRemoteConnection, List.mem_cons, h.2.2.2.1]
    · simp [handleRemoteConnection, List.mem_cons, h.2.2.2.2]

/-- Witness for C2 at a concrete schedule: the first three dials fail and the
fourth succeeds, so exactly four dials happen and the forwarders start. -/
theorem inbound_retry_budget_witness :
    countDials (handleRemoteConnection 0
        (fun j => if j < 3 then some "connection refused" else none)) = 4
  ∧ Action.spawnForward Direction.streamToConn
      ∈ handleRemoteConnection 0 (fun j => if j < 3 then some "connection refused" else none) := by
  have h := (inbound_retry_budget 0
      (fun j => if j < 3 then some "connection refused" else none)).2.2
      3 (by norm_num) (fun j hj => by simp [hj]) (by norm_num)
  exact ⟨h.1, h.2.2.1⟩

end Mpcoord

namespace Mpcoord

/-- A failed connect produces exactly the found-peer log, the connect attempt
and the skip log, and does not exit the process. -/
lemma mainLoopStep_connectFail (pk : String → Bool) (ra : String)
    (le re : Option String) (p : AddrInfo) (r : Nat) (e : String) :
    mainLoopStep pk ra (some e) le re p r
      = ⟨Action.logPrintln "Found peer" :: (addRelayAddress pk ra p).2
          ++ [Action.connect (addRelayAddress pk ra p).1.id,
              Action.logPrintln "Failed to connect, skipping"], false⟩ := rfl

/-- C5: a failed transport connect to a peer in the Coordinator's main loop
is logged and that peer is skipped — its iteration binds no listener and
launches no backend, the process does not exit, and the loop goes on to
process the remaining peers exactly as it would have. -/
theorem connect_failure_skips_peer (pk : String → Bool) (ra : String)
    (ce le re : AddrInfo → Option String) (rand : Nat → Nat) (i : Nat)
    (p : AddrInfo) (rest : List AddrInfo) (e : String) (h : ce p = some e) :
    (mainLoop pk ra ce le re rand i (p :: rest)).trace
      = (mainLoopStep pk ra (some e) (le p) (re p) p (rand i)).trace
        ++ (mainLoop pk ra ce le re rand (i + 1) rest).trace
  ∧ (mainLoop pk ra ce le re rand i (p :: rest)).exited
      = (mainLoop pk ra ce le re rand (i + 1) rest).exited
  ∧ (∀ q, Action.listen q ∉ (mainLoopStep pk ra (some e) (le p) (re p) p (rand i)).trace)
  ∧ (∀ a v, Action.execCmd a v ∉ (mainLoopStep pk ra (some e) (le p) (re p) p (rand i)).trace)
  ∧ Action.logPrintln "Failed to connect, skipping"
      ∈ (mainLoopStep pk ra (some e) (le p) (re p) p (rand i)).trace := by
  have hstep := mainLoopStep_connectFail pk ra (le p) (re p) p (rand i) e
  have hmain : mainLoop pk ra ce le re rand i (p :: rest)
      = ⟨(mainLoopStep pk ra (some e) (le p) (re p) p (rand i)).trace
          ++ (mainLoop pk ra ce le re rand (i + 1) rest).trace,
         (mainLoop pk ra ce le re rand (i + 1) rest).exited⟩ := by
    simp [mainLoop, h, hstep]
  refine ⟨by rw [hmain], by rw [hmain], ?_, ?_, ?_⟩
  · intro q
    rcases addRelayAddress_snd pk ra p with h2 | ⟨m, h2⟩ <;> simp [hstep, h2]
  · intro a v
    rcases addRelayAddress_snd pk ra p with h2 | ⟨m, h2⟩ <;> simp [hstep, h2]
  · simp [hstep]

/-- Witness for C5 at a concrete configuration: the first peer's connect
fails, and the loop still processes the second peer, whose iteration appends
its own trace. -/
theorem connect_failure_skips_peer_witness :
    (mainLoop (fun _ => true) "" (fun q => if q.id = 1 then some "dial refused" else none)
        (fun _ => none) (fun _ => none) (fun _ => 0) 0 [⟨1, []⟩, ⟨2, []⟩]).trace
      = (mainLoopStep (fun _ => true) "" (some "dial refused") none none ⟨1, []⟩ 0).trace
        ++ (mainLoop (fun _ => true) "" (fun q => if q.id = 1 then some "dial refused" else none)
            (fun _ => none) (fun _ => none) (fun _ => 0) 1 [⟨2, []⟩]).trace := by
  exact (connect_failure_skips_peer (fun _ => true) ""
    (fun q => if q.id = 1 then some "dial refused" else none)
    (fun _ => none) (fun _ => none) (fun _ => 0) 0 ⟨1, []⟩ [⟨2, []⟩]
    "dial refused" (by norm_num)).1

end Mpcoord

namespace Mpcoord

/-- On the successful path, the trace of one main-loop iteration is the
found/relay/connect prefix followed by the listener bind and, last, the
synchronous backend launch. -/
lemma mainLoopStep_ok_trace (pk : String → Bool) (ra : String) (p : AddrInfo) (r : Nat) :
    (mainLoopStep pk ra none none none p r).trace
      = (Action.logPrintln "Found peer" :: (addRelayAddress pk ra p).2
          ++ [Action.connect (addRelayAddress pk ra p).1.id])
        ++ [Action.logPrintln "client: listening for local requests",
            Action.listen (outboundListenPort r), Action.spawnAcceptLoop,
            Action.execCmd ["make", "outgoing-connection"]
              ["PORT=" ++ toString (outboundListenPort r)]] := by
  simp [mainLoopStep, serve, runExternal, mkCommand]

/-- C7: launch ordering of the Backend Launcher's two modes.  For an inbound
tunnel, the incoming backend is spawned asynchronously (action index 1),
strictly before every dial of the connect-retry loop.  For an outbound
tunnel, the iteration's trace ends with the listener bind followed by the
synchronous backend launch, so the listener is up first.  In both modes the
command passes the chosen port through its execution environment. -/
theorem backend_launch_modes (r : Nat) (dialErr : Nat → Option String)
    (pk : String → Bool) (ra : String) (p : AddrInfo)
    (event : String) (port : Nat) (re2 : Option String) :
    (handleRemoteConnection r dialErr)[1]?
      = some (Action.spawnRunExternal "incoming-connection" (incomingBackendPort r))
  ∧ (∀ j q, (handleRemoteConnection r dialErr)[j]? = some (Action.dial q) → 2 ≤ j)
  ∧ (∃ n, ((mainLoopStep pk ra none none none p r).trace).drop n
      = [Action.logPrintln "client: listening for local requests",
         Action.listen (outboundListenPort r), Action.spawnAcceptLoop,
         Action.execCmd ["make", "outgoing-connection"]
           ["PORT=" ++ toString (outboundListenPort r)]])
  ∧ (runExternal event port re2).trace.head?
      = some (Action.execCmd ["make", event] ["PORT=" ++ toString port])
  ∧ (mkCommand event port).env = ["PORT=" ++ toString port] := by
  refine ⟨by simp [handleRemoteConnection], ?_, ?_, ?_, rfl⟩
  · intro j q hj
    by_contra hlt
    push_neg at hlt
    interval_cases j <;> simp [handleRemoteConnection] at hj
  · refine ⟨(Action.logPrintln "Found peer" :: (addRelayAddress pk ra p).2
        ++ [Action.connect (addRelayAddress pk ra p).1.id]).length, ?_⟩
    rw [mainLoopStep_ok_trace, List.drop_left]
  · cases re2 <;> simp [runExternal, mkCommand]

/-- Witness for C7: at a backend that is dialable at once, the first dial sits
at index 2, after the asynchronous spawn at index 1; and the command built for
a concrete port carries it in the environment. -/
theorem backend_launch_modes_witness :
    2 ≤ 2 ∧ (mkCommand "outgoing-connection" 31234).env = ["PORT=" ++ toString 31234] := by
  have h := backend_launch_modes 1 (fun _ => none) (fun _ => true) "" ⟨5, []⟩
    "outgoing-connection" 31234 none
  exact ⟨h.2.1 2 (incomingBackendPort 1) (by decide), h.2.2.2.2⟩

end Mpcoord

namespace Mpcoord

/-- Witness for C1 at a concrete event, port and launch error. -/
theorem runExternal_failure_witness :
    (runExternal "incoming-connection" 20123 (some "exec failed")).exited = true :=
  (runExternal_failure_exits_process "incoming-connection" 20123 "exec failed"
    (fun _ => true) "" (fun _ => 0) 0 ⟨1, []⟩ []).1

/-- Witness for C3 at a concrete port and bind error. -/
theorem serve_bind_failure_witness :
    (serve 35000 (some "bind: address already in use")).exited = true :=
  (serve_bind_failure_fatal 35000 "bind: address already in use").1

/-- Witness for C4 at a concrete self identifier and discovery result. -/
theorem discovery_filters_self_witness :
    (discoveryEmits 1 [⟨1, []⟩, ⟨3, []⟩]).all (fun q => q.id != 1) = true :=
  (discovery_filters_self 1 [⟨1, []⟩, ⟨3, []⟩] ⟨3, []⟩).2

/-- Witness for C6 at a concrete endpoint that errors after three bytes. -/
theorem forward_witness :
    (forward ⟨[1, 2, 3], some "connection reset"⟩).dstClosed = true :=
  (forward_copies_and_closes ⟨[1, 2, 3], some "connection reset"⟩).2.1

/-- Witness for C8 at a concrete pair of random draws. -/
theorem port_ranges_witness :
    incomingBackendPort 123 ≠ outboundListenPort 123 :=
  (port_ranges 123 123 (fun _ => none)).2.2.2.1

/-- Witness for C10 at a configuration with both flags supplied. -/
theorem selectRole_witness :
    selectRole true "/ip4/1.2.3.4/tcp/10001/p2p/QmPeer" = Role.relay :=
  (selectRole_spec true "/ip4/1.2.3.4/tcp/10001/p2p/QmPeer").1

end Mpcoord
